import Mathlib

/-!
# Verification of the story-generation flow

A shallow embedding, in Lean 4, of the control-flow and scoring logic of the
`generate-story` repository, together with proofs of the behavioural
properties claimed by its specification.

The embedded code:
* `agents/agent_flow.py` — the multi-agent state machine (`node_retrieve`,
  `node_generate`, `node_evaluate`, `node_revise`, `_decide`, `compile_app`,
  `run_multi_agent_flow`) and the acceptance scorer `_judge_ok`;
* `story_generator.py` — the keyword-usage accounting at the end of
  `generate_story`.

Modelling conventions:
* Python strings are Lean `String`s; the scorer's tokenizer
  (`re.findall(r"[a-zA-Z]+", story.lower())`) and Python's `str.lower()`,
  `str.strip()`, `str.split(',')` and substring test (`in`) are embedded as
  executable functions over `List Char`.
* The two floating-point comparisons in `_judge_ok`
  (`rate < 0.6` and `count > len * 0.05`) are modelled as exact rational
  comparisons, written over `Nat` (`5*m < 3*l`, `20*c > l`); the rational
  value `vocabRate` is also defined and related to the `Nat` form.
* External collaborators (vector-store search, vocabulary fetchers, the LLM
  agent) are parameters of the machine: each fallible collaborator is an
  `Except String` value, and the agent is an oracle `Nat → String` giving the
  text produced by its n-th invocation.  Logging timestamps are dropped; log
  entries are the message texts.
-/

namespace GenStory

/-! ## Python-style character and string primitives -/

/-- ASCII uppercase letter test (`A`–`Z`, code points 65–90). -/
def isUpperAscii (c : Char) : Bool :=
  decide (65 ≤ c.toNat) && decide (c.toNat ≤ 90)

/-- ASCII lowercase letter test (`a`–`z`, code points 97–122). -/
def isLowerAscii (c : Char) : Bool :=
  decide (97 ≤ c.toNat) && decide (c.toNat ≤ 122)

/-- The character class `[a-zA-Z]` of the scorer's tokenizing regex. -/
def isAsciiLetter (c : Char) : Bool :=
  isLowerAscii c || isUpperAscii c

/-- ASCII lowering of one character, as Python's `str.lower()` acts on the
ASCII range (non-ASCII characters are irrelevant to the embedded claims and
are left unchanged). -/
def asciiLower (c : Char) : Char :=
  if isUpperAscii c then Char.ofNat (c.toNat + 32) else c

/-- Python's `str.lower()` on the ASCII range. -/
def lowerStr (s : String) : String :=
  String.mk (s.data.map asciiLower)

/-- Python's ASCII whitespace set for `str.strip()`. -/
def isPyWs (c : Char) : Bool :=
  c == ' ' || c == '\t' || c == '\n' || c == '\r' || c == '\x0b' || c == '\x0c'

/-- Python's `str.strip()` on a character list. -/
def pyStripChars (cs : List Char) : List Char :=
  ((cs.dropWhile isPyWs).reverse.dropWhile isPyWs).reverse

/-- Python's `str.strip()`. -/
def pyStrip (s : String) : String :=
  String.mk (pyStripChars s.data)

/-- Python's `str.split(sep)` for a one-character separator.  Like Python,
splitting the empty string yields `[""]`, never the empty list. -/
def splitChar (sep : Char) : List Char → List (List Char)
  | [] => [[]]
  | c :: rest =>
    match splitChar sep rest with
    | [] => [[]]
    | w :: ws => if c == sep then [] :: w :: ws else (c :: w) :: ws

/-- Python's `str.split(sep)` for a one-character separator, on `String`s. -/
def pySplit (sep : Char) (s : String) : List String :=
  (splitChar sep s.data).map String.mk

/-- Does `hay` start with `needle`? (helper for the substring test). -/
def startsWithSeq : List Char → List Char → Bool
  | [], _ => true
  | _ :: _, [] => false
  | a :: as, b :: bs => a == b && startsWithSeq as bs

/-- Python's substring test `needle in hay` (the empty needle occurs in
every string). -/
def hasSubSeq (needle : List Char) : List Char → Bool
  | [] => needle.isEmpty
  | b :: bs => startsWithSeq needle (b :: bs) || hasSubSeq needle bs

/-- Python's `needle in hay` on `String`s. -/
def pyContainsStr (hay needle : String) : Bool :=
  hasSubSeq needle.data hay.data

/-! ## The scorer's tokenizer

`_judge_ok` tokenizes with `re.findall(r"[a-zA-Z]+", story.lower())`:
maximal runs of ASCII letters of the lowered story. -/

/-- Maximal runs of characters satisfying `isAsciiLetter`; `acc` holds the
current run, reversed. -/
def letterRuns : List Char → List Char → List (List Char)
  | [], acc => if acc.isEmpty then [] else [acc.reverse]
  | c :: rest, acc =>
    if isAsciiLetter c then letterRuns rest (c :: acc)
    else if acc.isEmpty then letterRuns rest []
    else acc.reverse :: letterRuns rest []

/-- Embeds `re.findall(r"[a-zA-Z]+", story.lower())` from `_judge_ok`
(`agents/agent_flow.py` line 273). -/
def pyTokens (story : String) : List String :=
  (letterRuns (story.data.map asciiLower) []).map String.mk

/-! ## The acceptance scorer `_judge_ok` (`agents/agent_flow.py` 271–292) -/

/-- The `essential` grammar/function-word set of `_judge_ok` (the Python
source writes it as a set literal; `'her'` appears twice there and is kept
once here, which leaves membership unchanged). -/
def essentialWords : List String :=
  ["a", "an", "the", "is", "are", "was", "were", "be", "have", "has", "had",
   "do", "does", "did", "will", "would", "can", "could", "should", "may",
   "might", "must", "shall", "and", "or", "but", "so", "if", "when", "where",
   "what", "who", "how", "why", "in", "on", "at", "by", "for", "with", "to",
   "from", "about", "i", "you", "he", "she", "it", "we", "they", "me", "him",
   "her", "us", "them", "my", "your", "his", "its", "our", "their", "this",
   "that", "these", "those", "here", "there", "now", "then"]

/-- Embeds `content = [w for w in words if w not in essential]`. -/
def contentWords (story : String) : List String :=
  (pyTokens story).filter (fun w => !(essentialWords.contains w))

/-- Embeds `sum(w in set(allowed) for w in content)`. -/
def vocabMatches (story : String) (allowed : List String) : Nat :=
  (contentWords story).countP (fun w => allowed.contains w)

/-- The scorer's vocabulary rate `sum(...) / max(len(content), 1)`, as an
exact rational. -/
def vocabRate (story : String) (allowed : List String) : ℚ :=
  (vocabMatches story allowed : ℚ) / ((max (contentWords story).length 1 : ℕ) : ℚ)

/-- The vocabulary-rate rejection test of `_judge_ok`:
`if allowed and content: rate = ...; if rate < 0.6: return False`.
`rate < 0.6` is the exact rational comparison `5*matches < 3*max(len,1)`. -/
def vocabRuleRejects (story : String) (allowed : List String) : Bool :=
  !allowed.isEmpty && !(contentWords story).isEmpty &&
    decide (5 * vocabMatches story allowed < 3 * max (contentWords story).length 1)

/-- The filler-word rejection test of `_judge_ok`:
`words.count("thing") > len(words) * 0.05`, as the exact rational comparison
`20*count > len`. -/
def thingRuleRejects (story : String) : Bool :=
  decide (20 * (pyTokens story).count "thing" > (pyTokens story).length)

/-- Embeds `_judge_ok(story, allowed)` (`agents/agent_flow.py` 271–292). -/
def judge_ok (story : String) (allowed : List String) : Bool :=
  if (pyTokens story).length < 80 then false
  else if vocabRuleRejects story allowed then false
  else if thingRuleRejects story then false
  else true

/-! ## Keyword-usage accounting (`story_generator.py`, `generate_story` 447–472)

`generate_story` parses the comma-separated keyword string with
`[k.strip() for k in keywords.split(',')]`, then collects
`used_keywords = [k for k in keyword_list if k.lower() in story.lower()]`
and `keyword_usage_rate = len(used)/len(keyword_list) if keyword_list else 0`. -/

/-- Embeds `keyword_list = [k.strip() for k in keywords.split(',')]`. -/
def parseKeywords (keywords : String) : List String :=
  (pySplit ',' keywords).map pyStrip

/-- Embeds `keyword.lower() in story.lower()` — case-insensitive verbatim
occurrence of `k` in `story`. -/
def occursIn (story k : String) : Bool :=
  pyContainsStr (lowerStr story) (lowerStr k)

/-- Embeds `used_keywords` of `generate_story`. -/
def usedKeywords (keywords story : String) : List String :=
  (parseKeywords keywords).filter (fun k => occursIn story k)

/-- Embeds `keyword_usage_rate = len(used_keywords) / len(keyword_list) if
keyword_list else 0`, as an exact rational. -/
def keywordUsageRate (keywords story : String) : ℚ :=
  if parseKeywords keywords = [] then 0
  else ((usedKeywords keywords story).length : ℚ) / ((parseKeywords keywords).length : ℚ)

/-! ## The multi-agent flow (`agents/agent_flow.py` 175–358)

The graph built by `compile_app` has nodes `retrieve`, `generate`,
`evaluate`, `revise` with edges `retrieve → generate → evaluate → revise`
and a conditional edge from `revise` given by `_decide`.  External
collaborators are machine parameters; the LLM agent is an oracle indexed by
the number of agent invocations made so far, so that one run covers an
arbitrary sequence of agent outputs. -/

/-- Outcomes of the external collaborators used by one flow run.  A
`.error` value models the Python call raising an exception. -/
structure Collab where
  searchRes : Except String (List String)
  filteredVocab : Except String (List String)
  fullVocab : Except String (List String)
  agentOut : Nat → String

/-- The `State` TypedDict of `agents/agent_flow.py` (log timestamps are
dropped; entries are the message texts). -/
structure MAState where
  keywords : String
  length : String
  use_rag_only : Bool
  allowed_vocab : List String
  context : List String
  story : String
  critique : String
  tries : Nat
  ok : Bool
  logs : List String
  deriving Repr, DecidableEq

/-- Embeds `next((k.strip() for k in raw.split(",") if k.strip()), "")` from
`node_retrieve`. -/
def firstKeyword (raw : String) : String :=
  (((pySplit ',' raw).map pyStrip).filter (fun k => k ≠ "")).headD ""

/-- First half of `node_retrieve` (`agents/agent_flow.py` 175–190): derive
a query from the first non-empty keyword and run the document-store search;
an exception is caught and leaves the context empty. -/
def retrieveContext (c : Collab) (s0 : MAState) : MAState :=
  let s1 := { s0 with logs := s0.logs ++ ["Retrieve: start"] }
  if firstKeyword s1.keywords ≠ "" then
    match c.searchRes with
    | .ok docs =>
        { s1 with context := docs, logs := s1.logs ++ ["Retrieve: ok"] }
    | .error e =>
        { s1 with context := [],
                  logs := s1.logs ++
                    ["Retrieve: failed (" ++ e ++ ") — continue without context"] }
  else
    { s1 with context := [],
              logs := s1.logs ++ ["Retrieve: no keyword — skipping context"] }

/-- Second half of `node_retrieve` (`agents/agent_flow.py` 192–211): in
RAG-only mode, fetch the filtered vocabulary, replace it by the full
vocabulary when it has fewer than 30 words, and on an exception fall back
to the full vocabulary and then to the empty list (the in-branch exception
reaches the handler, whose own `get_vocabulary()` call fails the same
way). -/
def prepareVocab (c : Collab) (s : MAState) : MAState :=
  if s.use_rag_only then
    match c.filteredVocab with
    | .ok ws =>
        if ws.isEmpty || decide (ws.length < 30) then
          match c.fullVocab with
          | .ok vs =>
              { s with allowed_vocab := vs, logs := s.logs ++ ["Vocab: prepared"] }
          | .error _ =>
              { s with allowed_vocab := [],
                       logs := s.logs ++ ["Vocab: failed to prepare"] }
        else
          { s with allowed_vocab := ws, logs := s.logs ++ ["Vocab: prepared"] }
    | .error _ =>
        match c.fullVocab with
        | .ok vs =>
            { s with allowed_vocab := vs,
                     logs := s.logs ++ ["Vocab: fallback to full"] }
        | .error _ =>
            { s with allowed_vocab := [],
                     logs := s.logs ++ ["Vocab: failed to prepare"] }
  else s

/-- Embeds `node_retrieve` (`agents/agent_flow.py` 175–211): best-effort context
retrieval followed by the allowed-vocabulary preparation. -/
def node_retrieve (c : Collab) (s : MAState) : MAState :=
  prepareVocab c (retrieveContext c s)

/-- Embeds `node_generate` (`agents/agent_flow.py` 239–268): one agent invocation
produces the story text; `calls` counts agent invocations so far. -/
def node_generate (c : Collab) (calls : Nat) (s : MAState) : MAState × Nat :=
  ({ s with story := c.agentOut calls,
            logs := s.logs ++ ["Generate: start", "Generate: done"] }, calls + 1)

/-- Embeds `node_evaluate` (`agents/agent_flow.py` 295–303). -/
def node_evaluate (s : MAState) : MAState :=
  let ok := judge_ok s.story s.allowed_vocab
  { s with ok := ok,
           critique :=
             if ok then ""
             else "Increase RAG vocabulary usage to >=60%, avoid generic words, and ensure coherent flow.",
           logs := s.logs ++ ["Evaluate: start", "Evaluate: done"] }

/-- Embeds `node_revise` (`agents/agent_flow.py` 306–322): skipped entirely when
the story is already accepted; otherwise one agent invocation rewrites the
story and `tries` is incremented once. -/
def node_revise (c : Collab) (calls : Nat) (s : MAState) : MAState × Nat :=
  if s.ok then
    ({ s with logs := s.logs ++ ["Revise: skipped (already ok)"] }, calls)
  else
    ({ s with story := c.agentOut calls,
              tries := s.tries + 1,
              logs := s.logs ++ ["Revise: start", "Revise: attempt done"] }, calls + 1)

/-- The nodes of the compiled graph, plus the `END` sentinel. -/
inductive MANode where
  | retrieve | generate | evaluate | revise | done
  deriving Repr, DecidableEq

/-- Embeds `_decide` (`agents/agent_flow.py` 325–327), returning the follow-up
node of the conditional edge out of `revise`. -/
def decideNext (s : MAState) : MANode :=
  if s.ok || decide (s.tries ≥ 2) then .done else .generate

/-- A configuration of the compiled graph: current node, state, and the
number of agent invocations made so far. -/
structure Config where
  node : MANode
  st : MAState
  calls : Nat
  deriving Repr, DecidableEq

/-- One transition of the graph compiled by `compile_app`
(`agents/agent_flow.py` 329–340): `retrieve → generate → evaluate → revise`,
then the conditional edge `_decide` (to `generate` or `END`); `END` is
absorbing. -/
def step (c : Collab) : Config → Config
  | ⟨.retrieve, s, k⟩ => ⟨.generate, node_retrieve c s, k⟩
  | ⟨.generate, s, k⟩ =>
      let p := node_generate c k s
      ⟨.evaluate, p.1, p.2⟩
  | ⟨.evaluate, s, k⟩ => ⟨.revise, node_evaluate s, k⟩
  | ⟨.revise, s, k⟩ =>
      let p := node_revise c k s
      ⟨decideNext p.1, p.1, p.2⟩
  | ⟨.done, s, k⟩ => ⟨.done, s, k⟩

/-- Run `n` transitions. -/
def runFlow (c : Collab) (cfg : Config) : Nat → Config
  | 0 => cfg
  | n + 1 => runFlow c (step c cfg) n

/-- The initial state built by `run_multi_agent_flow`
(`agents/agent_flow.py` 343–358); `allowed_vocab` is the optional caller
argument, and `use_rag_only = bool(allowed_vocab)`. -/
def initState (keywords length : String) (allowed : Option (List String)) : MAState :=
  { keywords := keywords
    length := length
    use_rag_only := match allowed with | none => false | some l => !l.isEmpty
    allowed_vocab := allowed.getD []
    context := []
    story := ""
    critique := ""
    tries := 0
    ok := false
    logs := [] }

/-- The initial configuration: entry point `retrieve`, no agent calls yet. -/
def initConfig (keywords length : String) (allowed : Option (List String)) : Config :=
  ⟨.retrieve, initState keywords length allowed, 0⟩

/-! ## Auxiliary definitions for the invariant proofs and concrete runs -/

/-- Bound on `tries` by node: 1 while the machine is running (a `revise`
step may add one more), 2 at `END`. -/
def triesBound : MANode → Nat
  | .done => 2
  | _ => 1

/-- The inductive invariant behind the revision cap. -/
def TriesInv (cfg : Config) : Prop :=
  cfg.st.tries ≤ triesBound cfg.node

/-- The inductive invariant behind acceptance monotonicity: an accepted
state is only ever observed at the `revise` node (right after `evaluate`)
or at `END`. -/
def AcceptedInv (cfg : Config) : Prop :=
  cfg.st.ok = true → cfg.node = MANode.revise ∨ cfg.node = MANode.done

/-- A 79-token story (79 copies of `a`). -/
def storyA79 : String :=
  "a a a a a a a a a a a a a a a a a a a a a a a a a a a a a a a a a a a a a a a a a a a a a a a a a a a a a a a a a a a a a a a a a a a a a a a a a a a a a a a"

/-- An 80-token story (80 copies of `a`). -/
def storyA80 : String :=
  "a a a a a a a a a a a a a a a a a a a a a a a a a a a a a a a a a a a a a a a a a a a a a a a a a a a a a a a a a a a a a a a a a a a a a a a a a a a a a a a a"

/-- Collaborators whose agent always returns the 80-token story. -/
def collabA80 : Collab :=
  ⟨Except.ok [], Except.ok [], Except.ok [], fun _ => storyA80⟩

/-- Collaborators whose agent always returns a 1-token story, so every
evaluation rejects. -/
def collabShort : Collab :=
  ⟨Except.ok [], Except.ok [], Except.ok [], fun _ => "bad"⟩

/-- The example story of the keyword-accounting claim: contains "forest"
and "dragon" but not "magic". -/
def exStoryC9 : String :=
  "The forest was home to a dragon."


/-! ## Projection lemmas for the flow nodes -/

theorem retrieveContext_tries (c : Collab) (s : MAState) :
    (retrieveContext c s).tries = s.tries := by
  unfold retrieveContext
  dsimp only
  repeat' split
  all_goals rfl

theorem retrieveContext_okF (c : Collab) (s : MAState) :
    (retrieveContext c s).ok = s.ok := by
  unfold retrieveContext
  dsimp only
  repeat' split
  all_goals rfl

theorem retrieveContext_use_rag (c : Collab) (s : MAState) :
    (retrieveContext c s).use_rag_only = s.use_rag_only := by
  unfold retrieveContext
  dsimp only
  repeat' split
  all_goals rfl

theorem prepareVocab_tries (c : Collab) (s : MAState) :
    (prepareVocab c s).tries = s.tries := by
  unfold prepareVocab
  repeat' split
  all_goals rfl

theorem prepareVocab_okF (c : Collab) (s : MAState) :
    (prepareVocab c s).ok = s.ok := by
  unfold prepareVocab
  repeat' split
  all_goals rfl

theorem node_retrieve_tries (c : Collab) (s : MAState) :
    (node_retrieve c s).tries = s.tries := by
  rw [node_retrieve, prepareVocab_tries, retrieveContext_tries]

theorem node_retrieve_okF (c : Collab) (s : MAState) :
    (node_retrieve c s).ok = s.ok := by
  rw [node_retrieve, prepareVocab_okF, retrieveContext_okF]

theorem node_generate_tries (c : Collab) (k : Nat) (s : MAState) :
    (node_generate c k s).1.tries = s.tries := rfl

theorem node_generate_okF (c : Collab) (k : Nat) (s : MAState) :
    (node_generate c k s).1.ok = s.ok := rfl

theorem node_evaluate_tries (s : MAState) :
    (node_evaluate s).tries = s.tries := rfl

theorem node_revise_of_ok (c : Collab) (k : Nat) (s : MAState) (h : s.ok = true) :
    node_revise c k s =
      ({ s with logs := s.logs ++ ["Revise: skipped (already ok)"] }, k) := by
  simp [node_revise, h]

theorem node_revise_of_not_ok (c : Collab) (k : Nat) (s : MAState) (h : s.ok = false) :
    node_revise c k s =
      ({ s with story := c.agentOut k, tries := s.tries + 1,
                logs := s.logs ++ ["Revise: start", "Revise: attempt done"] }, k + 1) := by
  simp [node_revise, h]

/-! ## The revision-cap invariant (claim C1) -/

theorem decideNext_cases (s : MAState) :
    decideNext s = MANode.done ∨ decideNext s = MANode.generate := by
  unfold decideNext
  split <;> simp

theorem decideNext_eq_generate (s : MAState) (h : decideNext s = MANode.generate) :
    s.tries ≤ 1 := by
  by_contra hlt
  have hd : decideNext s = MANode.done := by
    unfold decideNext
    rw [if_pos]
    simp only [Bool.or_eq_true, decide_eq_true_eq]
    right
    omega
  rw [hd] at h
  exact MANode.noConfusion h

theorem node_revise_tries_le (c : Collab) (k : Nat) (s : MAState) :
    (node_revise c k s).1.tries ≤ s.tries + 1 := by
  unfold node_revise
  split <;> simp

theorem triesInv_step (c : Collab) (cfg : Config) (h : TriesInv cfg) :
    TriesInv (step c cfg) := by
  rcases cfg with ⟨node, s, k⟩
  cases node with
  | retrieve =>
      simpa [TriesInv, step, triesBound, node_retrieve_tries] using h
  | generate =>
      simpa [TriesInv, step, triesBound, node_generate_tries] using h
  | evaluate =>
      simpa [TriesInv, step, triesBound, node_evaluate_tries] using h
  | revise =>
      simp only [TriesInv, triesBound, step] at h ⊢
      have htr := node_revise_tries_le c k s
      rcases decideNext_cases (node_revise c k s).1 with hd | hd <;> rw [hd] <;> dsimp only
      · omega
      · have hle := decideNext_eq_generate _ hd
        omega
  | done =>
      simpa [TriesInv, step, triesBound] using h

theorem triesInv_runFlow (c : Collab) (cfg : Config) (n : Nat) (h : TriesInv cfg) :
    TriesInv (runFlow c cfg n) := by
  induction n generalizing cfg with
  | zero => exact h
  | succ n ih => exact ih _ (triesInv_step c cfg h)

/-- C1: for every input (keywords, length, vocabulary setting) and every
sequence of collaborator responses, at every point of the run — in
particular in the final state — the revision counter `tries` never exceeds
the configured maximum of 2. -/
theorem flow_tries_le_two (c : Collab) (kw ln : String) (av : Option (List String)) (n : Nat) :
    (runFlow c (initConfig kw ln av) n).st.tries ≤ 2 := by
  have h := triesInv_runFlow c (initConfig kw ln av) n
    (by simp [TriesInv, initConfig, initState, triesBound])
  have hb : triesBound (runFlow c (initConfig kw ln av) n).node ≤ 2 := by
    cases (runFlow c (initConfig kw ln av) n).node <;> simp [triesBound]
  exact le_trans h hb


/-! ## Acceptance monotonicity (claims C2 and C3) -/

theorem runFlow_succ (c : Collab) (cfg : Config) (n : Nat) :
    runFlow c cfg (n + 1) = step c (runFlow c cfg n) := by
  induction n generalizing cfg with
  | zero => rfl
  | succ n ih =>
      show runFlow c (step c cfg) (n + 1) = _
      rw [ih]
      rfl

theorem acceptedInv_step (c : Collab) (cfg : Config) (h : AcceptedInv cfg) :
    AcceptedInv (step c cfg) := by
  rcases cfg with ⟨node, s, k⟩
  cases node with
  | retrieve =>
      intro hok
      rw [show (step c ⟨MANode.retrieve, s, k⟩).st = node_retrieve c s from rfl,
        node_retrieve_okF] at hok
      rcases h hok with h' | h' <;> exact MANode.noConfusion h'
  | generate =>
      intro hok
      rcases h hok with h' | h' <;> exact MANode.noConfusion h'
  | evaluate =>
      intro _
      exact Or.inl rfl
  | revise =>
      intro hok
      right
      show decideNext (node_revise c k s).1 = MANode.done
      unfold decideNext
      rw [if_pos]
      simp only [Bool.or_eq_true]
      exact Or.inl hok
  | done =>
      intro _
      exact Or.inr rfl

theorem accepted_step_frozen (c : Collab) (cfg : Config)
    (hinv : AcceptedInv cfg) (hok : cfg.st.ok = true) :
    (step c cfg).st.tries = cfg.st.tries ∧ (step c cfg).calls = cfg.calls ∧
      (step c cfg).st.ok = true ∧ (step c cfg).node = MANode.done := by
  rcases cfg with ⟨node, s, k⟩
  rcases hinv hok with h | h
  · cases h
    have hrev := node_revise_of_ok c k s hok
    refine ⟨?_, ?_, ?_, ?_⟩
    · show (node_revise c k s).1.tries = s.tries
      rw [hrev]
    · show (node_revise c k s).2 = k
      rw [hrev]
    · show (node_revise c k s).1.ok = true
      rw [hrev]
      exact hok
    · show decideNext (node_revise c k s).1 = MANode.done
      rw [hrev]
      unfold decideNext
      rw [if_pos]
      simp only [Bool.or_eq_true]
      exact Or.inl hok
  · cases h
    exact ⟨rfl, rfl, hok, rfl⟩

theorem acceptedInv_runFlow (c : Collab) (kw ln : String) (av : Option (List String))
    (n : Nat) : AcceptedInv (runFlow c (initConfig kw ln av) n) := by
  induction n with
  | zero =>
      intro hok
      simp [initConfig, initState, runFlow] at hok
  | succ n ih =>
      rw [runFlow_succ]
      exact acceptedInv_step c _ ih

/-- C3: once an evaluation has set `ok = true`, nothing changes any more:
in every later configuration the `tries` counter is unchanged, the number
of agent invocations (generate/revise actions) is unchanged, `ok` stays
true, and the flow is already at its terminal node from the next step on. -/
theorem accepted_no_further_action (c : Collab) (kw ln : String) (av : Option (List String))
    (n m : Nat) (hnm : n ≤ m)
    (hok : (runFlow c (initConfig kw ln av) n).st.ok = true) :
    (runFlow c (initConfig kw ln av) m).st.tries =
        (runFlow c (initConfig kw ln av) n).st.tries ∧
      (runFlow c (initConfig kw ln av) m).calls =
        (runFlow c (initConfig kw ln av) n).calls ∧
      (runFlow c (initConfig kw ln av) m).st.ok = true ∧
      (n < m → (runFlow c (initConfig kw ln av) m).node = MANode.done) := by
  induction m, hnm using Nat.le_induction with
  | base => exact ⟨rfl, rfl, hok, fun h => absurd h (lt_irrefl n)⟩
  | succ m hnm ih =>
      obtain ⟨ht, hc, ho, _⟩ := ih
      have hstep := accepted_step_frozen c _ (acceptedInv_runFlow c kw ln av m) ho
      rw [runFlow_succ]
      refine ⟨?_, ?_, hstep.2.2.1, fun _ => hstep.2.2.2⟩
      · rw [hstep.1, ht]
      · rw [hstep.2.1, hc]

/-- Witness for C3: with an agent that emits an 80-token story, the run is
accepted at step 3 and steps 3 → 6 change neither `tries` nor the number of
agent invocations; the machine is at `END` at step 6. -/
theorem accepted_no_further_action_witness :
    (3 ≤ 6 ∧ (runFlow collabA80 (initConfig "cat" "short" none) 3).st.ok = true) ∧
      ((runFlow collabA80 (initConfig "cat" "short" none) 6).st.tries =
          (runFlow collabA80 (initConfig "cat" "short" none) 3).st.tries ∧
        (runFlow collabA80 (initConfig "cat" "short" none) 6).calls =
          (runFlow collabA80 (initConfig "cat" "short" none) 3).calls ∧
        (runFlow collabA80 (initConfig "cat" "short" none) 6).st.ok = true ∧
        (3 < 6 → (runFlow collabA80 (initConfig "cat" "short" none) 6).node = MANode.done)) :=
  ⟨⟨by decide, by decide⟩,
    accepted_no_further_action collabA80 "cat" "short" none 3 6 (by decide) (by decide)⟩

/-- C2 counterexample: in the compiled graph a `revise` execution is NOT
followed by `evaluate`: with an agent that always produces a one-token
story, step 3 is at `revise` and step 4 is at `generate` (the conditional
edge from `revise` leads to `generate` or `END`, never to `evaluate`). -/
theorem revise_not_followed_by_evaluate :
    (runFlow collabShort (initConfig "cat" "short" none) 3).node = MANode.revise ∧
    (runFlow collabShort (initConfig "cat" "short" none) 4).node ≠ MANode.evaluate ∧
    (runFlow collabShort (initConfig "cat" "short" none) 4).node = MANode.generate := by
  decide

/-- C2 (amended): after a `revise` execution the flow moves to `generate`
(regenerating before the next evaluation) or to `END` — never directly to
`evaluate`; `revise` increments `tries` exactly once when the current story
is unaccepted and leaves it unchanged when the story is already accepted. -/
theorem revise_step_transition (c : Collab) (cfg : Config) (h : cfg.node = MANode.revise) :
    ((step c cfg).node = MANode.generate ∨ (step c cfg).node = MANode.done) ∧
      (step c cfg).node ≠ MANode.evaluate ∧
      (cfg.st.ok = false → (step c cfg).st.tries = cfg.st.tries + 1) ∧
      (cfg.st.ok = true → (step c cfg).st.tries = cfg.st.tries) := by
  rcases cfg with ⟨node, s, k⟩
  cases h
  refine ⟨(decideNext_cases (node_revise c k s).1).symm, ?_, ?_, ?_⟩
  · rcases decideNext_cases (node_revise c k s).1 with hd | hd <;>
      · show decideNext (node_revise c k s).1 ≠ MANode.evaluate
        rw [hd]
        exact fun hc => MANode.noConfusion hc
  · intro hok
    show (node_revise c k s).1.tries = s.tries + 1
    rw [node_revise_of_not_ok c k s hok]
  · intro hok
    show (node_revise c k s).1.tries = s.tries
    rw [node_revise_of_ok c k s hok]

/-- Witness for the amended C2, at a concrete `revise` configuration with
an unaccepted story. -/
theorem revise_step_transition_witness :
    (Config.mk MANode.revise (initState "k" "short" none) 0).node = MANode.revise ∧
      (((step collabShort (Config.mk MANode.revise (initState "k" "short" none) 0)).node =
            MANode.generate ∨
          (step collabShort (Config.mk MANode.revise (initState "k" "short" none) 0)).node =
            MANode.done) ∧
        (step collabShort (Config.mk MANode.revise (initState "k" "short" none) 0)).node ≠
          MANode.evaluate ∧
        ((Config.mk MANode.revise (initState "k" "short" none) 0).st.ok = false →
          (step collabShort (Config.mk MANode.revise (initState "k" "short" none) 0)).st.tries =
            (Config.mk MANode.revise (initState "k" "short" none) 0).st.tries + 1) ∧
        ((Config.mk MANode.revise (initState "k" "short" none) 0).st.ok = true →
          (step collabShort (Config.mk MANode.revise (initState "k" "short" none) 0)).st.tries =
            (Config.mk MANode.revise (initState "k" "short" none) 0).st.tries)) :=
  ⟨rfl, revise_step_transition collabShort (Config.mk MANode.revise (initState "k" "short" none) 0) rfl⟩


/-! ## Retrieval-step claims (C4, C5, C8) -/

/-- C4: in vocabulary-restricted mode, whenever the filtered-vocabulary
collaborator returns fewer than 30 words (including none at all), the
`allowed_vocab` left in the state is exactly the full-vocabulary
collaborator's output. -/
theorem vocab_fallback_to_full (c : Collab) (s : MAState) (ws vs : List String)
    (hR : s.use_rag_only = true) (hFil : c.filteredVocab = Except.ok ws)
    (hlen : ws.length < 30) (hFull : c.fullVocab = Except.ok vs) :
    (node_retrieve c s).allowed_vocab = vs := by
  rw [node_retrieve]
  unfold prepareVocab
  rw [retrieveContext_use_rag, hR, hFil]
  simp [hlen, hFull]


/-- Witness for C4: a concrete sparse filtered vocabulary (empty) is
replaced by the full-vocabulary output `["x", "y"]`. -/
theorem vocab_fallback_to_full_witness :
    ((initState "cat" "short" (some ["w"])).use_rag_only = true ∧
      (⟨Except.ok [], Except.ok [], Except.ok ["x", "y"], fun _ => ""⟩ : Collab).filteredVocab =
        Except.ok ([] : List String) ∧
      ([] : List String).length < 30 ∧
      (⟨Except.ok [], Except.ok [], Except.ok ["x", "y"], fun _ => ""⟩ : Collab).fullVocab =
        Except.ok ["x", "y"]) ∧
    (node_retrieve ⟨Except.ok [], Except.ok [], Except.ok ["x", "y"], fun _ => ""⟩
        (initState "cat" "short" (some ["w"]))).allowed_vocab = ["x", "y"] :=
  ⟨⟨by decide, rfl, by decide, rfl⟩,
    vocab_fallback_to_full _ _ [] ["x", "y"] (by decide) rfl (by decide) rfl⟩

/-- C5 counterexample: with an empty vocabulary store, both the filtered
and the full vocabulary collaborators succeed with empty lists, and
`allowed_vocab` ends EMPTY although vocabulary-restricted mode is on and no
collaborator raised — the fallback does not guarantee non-emptiness. -/
theorem vocab_nonempty_cex :
    (initState "cat" "short" (some ["w"])).use_rag_only = true ∧
      (⟨Except.ok ["doc"], Except.ok [], Except.ok [], fun _ => ""⟩ : Collab).filteredVocab =
        Except.ok ([] : List String) ∧
      (⟨Except.ok ["doc"], Except.ok [], Except.ok [], fun _ => ""⟩ : Collab).fullVocab =
        Except.ok ([] : List String) ∧
      (node_retrieve ⟨Except.ok ["doc"], Except.ok [], Except.ok [], fun _ => ""⟩
          (initState "cat" "short" (some ["w"]))).allowed_vocab = [] := by
  refine ⟨by decide, rfl, rfl, ?_⟩
  decide

/-- C5 (amended): after the retrieval step in vocabulary-restricted mode,
`allowed_vocab` is non-empty provided the filtered-vocabulary collaborator
returned at least 30 words or the full-vocabulary collaborator returned a
non-empty list.  (The unconditional claim fails when the vocabulary store
is empty: see the counterexample.) -/
theorem vocab_nonempty_amended (c : Collab) (s : MAState)
    (hR : s.use_rag_only = true)
    (h : (∃ ws, c.filteredVocab = Except.ok ws ∧ 30 ≤ ws.length) ∨
         (∃ vs, c.fullVocab = Except.ok vs ∧ vs ≠ [])) :
    (node_retrieve c s).allowed_vocab ≠ [] := by
  rw [node_retrieve]
  unfold prepareVocab
  rw [retrieveContext_use_rag, hR, if_pos rfl]
  rcases h with ⟨ws, hFil, hlen⟩ | ⟨vs, hFull, hne⟩
  · have h1 : ws.isEmpty = false := by
      cases ws with
      | nil => simp at hlen
      | cons a l => rfl
    have h2 : decide (ws.length < 30) = false := decide_eq_false (by omega)
    rw [hFil]
    dsimp only
    rw [h1, h2, if_neg (by simp)]
    dsimp only
    intro hc
    subst hc
    simp at hlen
  · cases hFil : c.filteredVocab with
    | ok ws =>
        dsimp only
        by_cases hsp : (ws.isEmpty || decide (ws.length < 30)) = true
        · rw [if_pos hsp, hFull]
          dsimp only
          exact hne
        · rw [if_neg hsp]
          dsimp only
          simp only [Bool.or_eq_true, not_or] at hsp
          intro hc
          subst hc
          exact hsp.1 rfl
    | error err =>
        dsimp only
        rw [hFull]
        dsimp only
        exact hne

/-- Witness for the amended C5: the filtered fetch raises, the full
vocabulary is the non-empty `["x"]`, and `allowed_vocab` is non-empty. -/
theorem vocab_nonempty_amended_witness :
    ((initState "cat" "short" (some ["w"])).use_rag_only = true ∧
      (⟨Except.ok [], Except.error "db down", Except.ok ["x"], fun _ => ""⟩ : Collab).fullVocab =
          Except.ok ["x"] ∧ (["x"] : List String) ≠ []) ∧
    (node_retrieve ⟨Except.ok [], Except.error "db down", Except.ok ["x"], fun _ => ""⟩
        (initState "cat" "short" (some ["w"]))).allowed_vocab ≠ [] :=
  ⟨⟨by decide, rfl, by decide⟩,
    vocab_nonempty_amended _ _ (by decide) (Or.inr ⟨["x"], rfl, by decide⟩)⟩

theorem prepareVocab_context (c : Collab) (s : MAState) :
    (prepareVocab c s).context = s.context := by
  unfold prepareVocab
  repeat' split
  all_goals rfl

theorem prepareVocab_logs_mono (c : Collab) (s : MAState) (x : String)
    (hx : x ∈ s.logs) : x ∈ (prepareVocab c s).logs := by
  unfold prepareVocab
  repeat' split
  all_goals simp [hx]

/-- C8: when the document-store search raises during retrieval (the search
is attempted because a non-empty keyword exists), the exception is caught:
the context is set to the empty list, a warning naming the failure is
appended to the log, `node_retrieve` still returns normally, and the flow's
next node is `generate` — the failure is never surfaced to the caller. -/
theorem retrieval_failure_recovered (c : Collab) (s : MAState) (e : String)
    (hkw : firstKeyword s.keywords ≠ "") (hs : c.searchRes = Except.error e) :
    (node_retrieve c s).context = [] ∧
      ("Retrieve: failed (" ++ e ++ ") — continue without context") ∈
        (node_retrieve c s).logs ∧
      ∀ k, (step c ⟨MANode.retrieve, s, k⟩).node = MANode.generate := by
  have hrc : retrieveContext c s =
      { s with context := [],
               logs := (s.logs ++ ["Retrieve: start"]) ++
                 ["Retrieve: failed (" ++ e ++ ") — continue without context"] } := by
    unfold retrieveContext
    dsimp only
    rw [if_pos hkw, hs]
  refine ⟨?_, ?_, fun _ => rfl⟩
  · rw [node_retrieve, prepareVocab_context, hrc]
  · rw [node_retrieve]
    exact prepareVocab_logs_mono c _ _ (by rw [hrc]; simp)

/-- Witness for C8, with a concrete failing search. -/
theorem retrieval_failure_recovered_witness :
    (firstKeyword (initState "cat" "short" none).keywords ≠ "" ∧
      (⟨Except.error "boom", Except.ok [], Except.ok [], fun _ => ""⟩ : Collab).searchRes =
        Except.error "boom") ∧
    ((node_retrieve ⟨Except.error "boom", Except.ok [], Except.ok [], fun _ => ""⟩
        (initState "cat" "short" none)).context = [] ∧
      ("Retrieve: failed (" ++ "boom" ++ ") — continue without context") ∈
        (node_retrieve ⟨Except.error "boom", Except.ok [], Except.ok [], fun _ => ""⟩
          (initState "cat" "short" none)).logs ∧
      ∀ k, (step (⟨Except.error "boom", Except.ok [], Except.ok [], fun _ => ""⟩ : Collab)
          ⟨MANode.retrieve, initState "cat" "short" none, k⟩).node = MANode.generate) :=
  ⟨⟨by decide, rfl⟩,
    retrieval_failure_recovered _ _ "boom" (by decide) rfl⟩


/-! ## Scorer boundary claims (C6, C7) -/

/-- C6: the scorer rejects every story whose lowercase-alphabetic token
count is below 80, and the length rule alone never rejects an 80-token
story: with exactly 80 tokens, acceptance is decided solely by the
remaining rules. -/
theorem scorer_length_boundary (story : String) (allowed : List String) :
    ((pyTokens story).length < 80 → judge_ok story allowed = false) ∧
      ((pyTokens story).length = 80 → vocabRuleRejects story allowed = false →
        thingRuleRejects story = false → judge_ok story allowed = true) := by
  constructor
  · intro h
    rw [judge_ok, if_pos h]
  · intro h80 hv ht
    rw [judge_ok, if_neg (by omega), hv, ht]
    rfl

/-- Witness for C6: a 79-token story is rejected; an 80-token story that
passes the other rules is accepted. -/
theorem scorer_length_boundary_witness :
    ((pyTokens storyA79).length < 80 ∧ judge_ok storyA79 [] = false) ∧
      ((pyTokens storyA80).length = 80 ∧ vocabRuleRejects storyA80 [] = false ∧
        thingRuleRejects storyA80 = false ∧ judge_ok storyA80 [] = true) :=
  ⟨⟨by decide, (scorer_length_boundary storyA79 []).1 (by decide)⟩,
    ⟨by decide, by decide, by decide,
      (scorer_length_boundary storyA80 []).2 (by decide) (by decide) (by decide)⟩⟩

theorem nat_div_lt_three_fifths (m l : Nat) (hl : 0 < l) :
    ((m : ℚ) / (l : ℚ) < 3/5) ↔ 5 * m < 3 * l := by
  rw [div_lt_div_iff₀ (by exact_mod_cast hl) (by norm_num : (0:ℚ) < 5)]
  constructor
  · intro h
    have h2 : (m * 5 : ℕ) < (3 * l : ℕ) := by exact_mod_cast h
    omega
  · intro h
    have h2 : (m * 5 : ℕ) < (3 * l : ℕ) := by omega
    exact_mod_cast h2

theorem vocabRate_lt_iff (story : String) (allowed : List String)
    (hC : contentWords story ≠ []) :
    vocabRate story allowed < 3/5 ↔
      5 * vocabMatches story allowed < 3 * max (contentWords story).length 1 := by
  have hpos : 0 < (contentWords story).length := List.length_pos.mpr hC
  have hmax : max (contentWords story).length 1 = (contentWords story).length :=
    Nat.max_eq_left hpos
  rw [vocabRate, hmax]
  exact nat_div_lt_three_fifths _ _ hpos

/-- C7: with a non-empty allowed vocabulary and at least one content word,
the scorer's vocabulary rule fires exactly when the fraction of content
words drawn from the allowed set is strictly below 3/5 (so a 59% story is
rejected outright), and at or above the threshold (e.g. a 60% story) the
vocabulary rule passes: acceptance is then decided by the length and
filler rules alone. -/
theorem scorer_rate_boundary (story : String) (allowed : List String)
    (hA : allowed ≠ []) (hC : contentWords story ≠ []) :
    (vocabRuleRejects story allowed = true ↔ vocabRate story allowed < 3/5) ∧
      (vocabRate story allowed < 3/5 → judge_ok story allowed = false) ∧
      ((3/5 : ℚ) ≤ vocabRate story allowed →
        (judge_ok story allowed = true ↔
          (80 ≤ (pyTokens story).length ∧ thingRuleRejects story = false))) := by
  have hAb : allowed.isEmpty = false := by
    cases allowed with
    | nil => exact absurd rfl hA
    | cons a l => rfl
  have hCb : (contentWords story).isEmpty = false := by
    cases hcw : contentWords story with
    | nil => exact absurd hcw hC
    | cons a l => rfl
  have hrule : vocabRuleRejects story allowed =
      decide (5 * vocabMatches story allowed < 3 * max (contentWords story).length 1) := by
    rw [vocabRuleRejects, hAb, hCb]
    rfl
  refine ⟨?_, ?_, ?_⟩
  · rw [hrule]
    simp only [decide_eq_true_eq]
    exact (vocabRate_lt_iff story allowed hC).symm
  · intro hlt
    have hv : vocabRuleRejects story allowed = true := by
      rw [hrule]
      exact decide_eq_true ((vocabRate_lt_iff story allowed hC).mp hlt)
    rw [judge_ok]
    by_cases hlen : (pyTokens story).length < 80
    · rw [if_pos hlen]
    · rw [if_neg hlen, hv, if_pos rfl]
  · intro hge
    have hv : vocabRuleRejects story allowed = false := by
      rw [hrule]
      exact decide_eq_false
        ((not_congr (vocabRate_lt_iff story allowed hC)).mp (not_lt.mpr hge))
    rw [judge_ok, hv]
    by_cases hlen : (pyTokens story).length < 80
    · rw [if_pos hlen]
      constructor
      · intro h
        exact absurd h (by simp)
      · intro h
        exact absurd h.1 (by omega)
    · rw [if_neg hlen, if_neg (by simp)]
      cases hth : thingRuleRejects story with
      | false =>
          rw [if_neg (by simp [hth])]
          exact ⟨fun _ => ⟨by omega, rfl⟩, fun _ => rfl⟩
      | true =>
          rw [if_pos (by simp [hth])]
          constructor
          · intro h
            exact absurd h (by simp)
          · intro h
            exact absurd h.2 (by simp [hth])

/-- Witness for C7: allowed set `{"forest", "magic"}` and a story with one
of two content words allowed (rate 1/2 < 3/5). -/
theorem scorer_rate_boundary_witness :
    ((["forest", "magic"] : List String) ≠ [] ∧ contentWords "forest zzz" ≠ []) ∧
      (vocabRuleRejects "forest zzz" ["forest", "magic"] = true ↔
        vocabRate "forest zzz" ["forest", "magic"] < 3/5) :=
  ⟨⟨by decide, by decide⟩,
    (scorer_rate_boundary "forest zzz" ["forest", "magic"] (by decide) (by decide)).1⟩


/-! ## Case sensitivity of the vocabulary check (claim C10) -/

theorem toNat_ofNat_valid (m : Nat) (h : m.isValidChar) :
    (Char.ofNat m).toNat = m := by
  rw [Char.ofNat, dif_pos h]
  rfl

theorem asciiLower_not_upper (c : Char) : isUpperAscii (asciiLower c) = false := by
  rw [asciiLower]
  by_cases h : isUpperAscii c
  · rw [if_pos h]
    have hr : 65 ≤ c.toNat ∧ c.toNat ≤ 90 := by
      simpa [isUpperAscii, Bool.and_eq_true, decide_eq_true_eq] using h
    have hv : (c.toNat + 32).isValidChar := Or.inl (by omega)
    rw [isUpperAscii, toNat_ofNat_valid _ hv]
    have h90 : ¬(c.toNat + 32 ≤ 90) := by omega
    simp [h90]
  · rw [if_neg h]
    simpa using h

theorem letterRuns_chars (p : Char → Bool) :
    ∀ (cs acc : List Char), (∀ ch ∈ cs, p ch = true) → (∀ ch ∈ acc, p ch = true) →
      ∀ t ∈ letterRuns cs acc, ∀ ch ∈ t, p ch = true := by
  intro cs
  induction cs with
  | nil =>
      intro acc _ hacc t ht ch hch
      rw [letterRuns] at ht
      split at ht
      · simp at ht
      · simp only [List.mem_singleton] at ht
        subst ht
        exact hacc ch (List.mem_reverse.mp hch)
  | cons c rest ih =>
      intro acc hcs hacc t ht ch hch
      have hc : p c = true := hcs c (List.mem_cons_self c rest)
      have hrest : ∀ x ∈ rest, p x = true :=
        fun x hx => hcs x (List.mem_cons_of_mem c hx)
      rw [letterRuns] at ht
      split at ht
      · refine ih (c :: acc) hrest ?_ t ht ch hch
        intro x hx
        rcases List.mem_cons.mp hx with he | hx'
        · exact he ▸ hc
        · exact hacc x hx'
      · split at ht
        · exact ih [] hrest (by simp) t ht ch hch
        · rcases List.mem_cons.mp ht with he | ht'
          · subst he
            exact hacc ch (List.mem_reverse.mp hch)
          · exact ih [] hrest (by simp) t ht' ch hch

theorem pyTokens_chars_not_upper (story : String) :
    ∀ w ∈ pyTokens story, ∀ ch ∈ w.data, isUpperAscii ch = false := by
  intro w hw ch hch
  rw [pyTokens] at hw
  rcases List.mem_map.mp hw with ⟨t, ht, rfl⟩
  have hlow : ∀ x ∈ story.data.map asciiLower, (!isUpperAscii x) = true := by
    intro x hx
    rcases List.mem_map.mp hx with ⟨c0, _, rfl⟩
    rw [asciiLower_not_upper c0]
    rfl
  have := letterRuns_chars (fun x => !isUpperAscii x) (story.data.map asciiLower) []
    hlow (by simp) t ht ch hch
  simpa using this

/-- C10: the scorer lowercases story tokens but never normalizes the
allowed-vocabulary entries, so an allowed entry containing an ASCII
uppercase letter can never equal any story token and never contributes to
the vocabulary-rate count. -/
theorem scorer_uppercase_entry_inert (story entry : String)
    (h : entry.data.any isUpperAscii = true) :
    (∀ w ∈ pyTokens story, w ≠ entry) ∧
      (∀ rest : List String,
        vocabMatches story (entry :: rest) = vocabMatches story rest) := by
  obtain ⟨ch0, hch0, hup⟩ := List.any_eq_true.mp h
  have hne : ∀ w ∈ pyTokens story, w ≠ entry := by
    intro w hw he
    have hlow : isUpperAscii ch0 = false := by
      apply pyTokens_chars_not_upper story w hw
      rw [he]
      exact hch0
    rw [hlow] at hup
    exact Bool.false_ne_true hup
  refine ⟨hne, fun rest => ?_⟩
  rw [vocabMatches, vocabMatches]
  apply List.countP_congr
  intro w hw
  have hwt : w ∈ pyTokens story := List.mem_of_mem_filter hw
  have hbeq : (w == entry) = false := beq_eq_false_iff_ne.mpr (hne w hwt)
  rw [List.contains_cons, hbeq]
  simp

/-- Witness for C10: the entry `"Forest"` never matches a token of a story
whose tokens include `"forest"`, and removing it does not change the
match count. -/
theorem scorer_uppercase_entry_inert_witness :
    ("Forest".data.any isUpperAscii = true) ∧
      ((∀ w ∈ pyTokens "the forest forest", w ≠ "Forest") ∧
        ∀ rest : List String,
          vocabMatches "the forest forest" ("Forest" :: rest) =
            vocabMatches "the forest forest" rest) :=
  ⟨by decide, scorer_uppercase_entry_inert "the forest forest" "Forest" (by decide)⟩

/-! ## Keyword-usage accounting (claim C9) -/

theorem splitChar_ne_nil (sep : Char) (cs : List Char) : splitChar sep cs ≠ [] := by
  cases cs with
  | nil => simp [splitChar]
  | cons c rest =>
      rw [splitChar]
      cases h : splitChar sep rest with
      | nil => simp
      | cons w ws =>
          dsimp only
          split <;> simp

theorem parseKeywords_ne_nil (keywords : String) : parseKeywords keywords ≠ [] := by
  rw [parseKeywords, pySplit]
  intro h
  rw [List.map_map, List.map_eq_nil_iff] at h
  exact splitChar_ne_nil ',' keywords.data h

/-- C9: `keywords_used` is exactly the parsed input keywords (split on
commas, stripped) that occur verbatim, case-insensitively, in the story —
a sublist of the input keyword list — and `keyword_usage_rate` is their
count divided by the number of input keywords.  On the spec's example
(keywords `"forest, magic, dragon"`, a story containing "forest" and
"dragon" but not "magic") the result is `["forest", "dragon"]` with rate
`2/3`. -/
theorem keyword_usage_accounting (keywords story : String) :
    (usedKeywords keywords story).Sublist (parseKeywords keywords) ∧
      (∀ k, k ∈ usedKeywords keywords story ↔
        (k ∈ parseKeywords keywords ∧ occursIn story k = true)) ∧
      keywordUsageRate keywords story =
        ((usedKeywords keywords story).length : ℚ) /
          ((parseKeywords keywords).length : ℚ) ∧
      usedKeywords "forest, magic, dragon" exStoryC9 = ["forest", "dragon"] ∧
      keywordUsageRate "forest, magic, dragon" exStoryC9 = 2/3 := by
  refine ⟨List.filter_sublist _, ?_, ?_, ?_, ?_⟩
  · intro k
    simp [usedKeywords, List.mem_filter]
  · rw [keywordUsageRate, if_neg (parseKeywords_ne_nil keywords)]
  · decide
  · rw [keywordUsageRate, if_neg (parseKeywords_ne_nil _)]
    rw [show (usedKeywords "forest, magic, dragon" exStoryC9).length = 2 from by decide,
      show (parseKeywords "forest, magic, dragon").length = 3 from by decide]
    norm_num

/-- Witness for C9, extracting the concrete example. -/
theorem keyword_usage_accounting_witness :
    usedKeywords "forest, magic, dragon" exStoryC9 = ["forest", "dragon"] ∧
      keywordUsageRate "forest, magic, dragon" exStoryC9 = 2/3 :=
  ⟨(keyword_usage_accounting "forest, magic, dragon" exStoryC9).2.2.2.1,
    (keyword_usage_accounting "forest, magic, dragon" exStoryC9).2.2.2.2⟩

end GenStory
